import Mathlib

/-!
Shallow embedding of the orbit coverage computation engine of `backend.py`
(GREMNIN repository), and proofs settling the frozen claims about it.

Modelling conventions:
* Python floats are modelled as exact numbers: `ℝ` where the code computes
  with trigonometry and π, `ℚ` where the code manipulates times, counts and
  parsed decimal fields.  `datetime` values are modelled as rational second
  counts on the proleptic Gregorian timeline (seconds since 0001-01-01
  00:00:00 UTC), which is the calendar `datetime` implements; `timedelta`
  addition is exact rational addition.
* The external capabilities consumed by the engine (the SGP4 propagator
  `Satrec.sgp4`, the `jday` conversion and the pyproj geodetic conversion)
  are parameters of the embedding, bundled in `Caps` below, exactly as the
  spec treats them ("external propagator as capability, not object").
* Python `%` on floats with a positive modulus is `pymod` below;
  `math.radians` is `radians`.
-/

open Classical

/-! ### Python float modulo and `math.radians` -/

/-- Python `x % m` on floats for `m > 0`: the representative of `x` mod `m`
in `[0, m)`. -/
noncomputable def pymod (x m : ℝ) : ℝ := x - m * ⌊x / m⌋

/-- `math.radians`. -/
noncomputable def radians (x : ℝ) : ℝ := x * (Real.pi / 180)

/-! ### Time and epoch utilities (`backend.py` lines 8-19 and 149-175) -/

/-- `days_in_month_prefix_sum` (`backend.py` line 8). -/
def days_in_month_prefix_sum : List ℕ := [0, 0, 31, 59, 90, 120, 151, 181, 212, 243, 273, 304, 334]

/-- The leap-year test used by `get_day_of_year` (`backend.py` line 15). -/
def is_leap (year : ℕ) : Bool := year % 4 == 0 && (!(year % 100 == 0) || year % 400 == 0)

/-- `get_day_of_year` (`backend.py` lines 14-19). -/
def get_day_of_year (day month year : ℕ) : ℕ :=
  let d := day + days_in_month_prefix_sum.getD month 0
  if is_leap year ∧ 2 < month then d + 1 else d

/-- `date_format_check` (`backend.py` lines 10-12): the regex
`^\d{2}-\d{2}-\d{4}$`. -/
def date_format_check (s : String) : Bool :=
  match s.toList with
  | [d1, d2, h1, m1, m2, h2, y1, y2, y3, y4] =>
    d1.isDigit && d2.isDigit && (h1 == '-') && m1.isDigit && m2.isDigit && (h2 == '-') &&
      y1.isDigit && y2.isDigit && y3.isDigit && y4.isDigit
  | _ => false

/-- Value of a digit string (most significant first). -/
def digitsVal (cs : List Char) : ℕ := cs.foldl (fun n c => 10 * n + (c.toNat - 48)) 0

/-- Python `int(s)` on the decimal-digit strings that appear in TLE epoch
fields: all characters must be digits. -/
def digitsToNat? (cs : List Char) : Option ℕ :=
  if cs ≠ [] ∧ cs.all Char.isDigit then some (digitsVal cs) else none

/-- Python `float(s)` on the fixed-point decimal strings that appear in TLE
epoch fields: digits with at most one decimal point. -/
def decToRat? (cs : List Char) : Option ℚ :=
  let ip := cs.takeWhile (· ≠ '.')
  let rest := cs.dropWhile (· ≠ '.')
  match rest with
  | [] => if cs ≠ [] ∧ cs.all Char.isDigit then some ((digitsVal cs : ℚ)) else none
  | _ :: fp =>
    if (ip ≠ [] ∨ fp ≠ []) ∧ ip.all Char.isDigit ∧ fp.all Char.isDigit then
      some ((digitsVal ip : ℚ) + (digitsVal fp : ℚ) / (10 : ℚ) ^ fp.length)
    else none

/-- Python `int`/`float` strip surrounding whitespace before parsing. -/
def stripSpaces (cs : List Char) : List Char :=
  ((cs.dropWhile (· = ' ')).reverse.dropWhile (· = ' ')).reverse

/-- Python string slice `s[a:b]`. -/
def strSlice (s : String) (a b : ℕ) : List Char := (s.toList.drop a).take (b - a)

/-- TLE epoch decoding (`backend.py` lines 151-157): extracts the 2-digit
year from `tle1[18:20]` (pivot `< 57` → 2000s, else 1900s) and the
fractional day-of-year from `tle1[20:32]`, then forms
`days_offset = int(doy) - 1` and `fraction_of_day = doy - days_offset`.
Returns `(full_year, days_offset, seconds_in_fraction)`; the epoch instant
is January 1st of `full_year` plus `days_offset` days plus
`seconds_in_fraction` seconds.  (The parsed day-of-year is nonnegative, so
Python `int()` truncation agrees with `⌊·⌋`.) -/
def resolveEpochFromElements (tle1 : String) : Option (ℕ × ℤ × ℚ) :=
  match digitsToNat? (stripSpaces (strSlice tle1 18 20)),
        decToRat? (stripSpaces (strSlice tle1 20 32)) with
  | some ys, some doy =>
    let fullYear := ys + (if ys < 57 then 2000 else 1900)
    let daysOffset : ℤ := ⌊doy⌋ - 1
    let fracOfDay : ℚ := doy - (daysOffset : ℚ)
    some (fullYear, daysOffset, fracOfDay * 86400)
  | _, _ => none

/-- Seconds from 0001-01-01 00:00 UTC to January 1st 00:00 of `year` on the
proleptic Gregorian calendar (the calendar of Python `datetime`). -/
def jan1Sec (year : ℕ) : ℚ :=
  86400 * ((365 * (year - 1) + (year - 1) / 4 - (year - 1) / 100 + (year - 1) / 400 : ℕ) : ℚ)

/-- Month lengths of the proleptic Gregorian calendar, used to model the
validation performed by the Python `datetime` constructor. -/
def daysInMonth (year month : ℕ) : ℕ :=
  if month = 2 ∧ is_leap year then 29
  else [31, 28, 31, 30, 31, 30, 31, 31, 30, 31, 30, 31].getD (month - 1) 0

/-- Seconds from 0001-01-01 00:00 UTC to midnight of a Gregorian date. -/
def dateToSec (year month day : ℕ) : ℚ :=
  jan1Sec year + ((get_day_of_year day month year - 1 : ℕ) : ℚ) * 86400

/-! ### Frame transforms (`backend.py` lines 21-61) -/

/-- The GMST polynomial of `gmst` (`backend.py` lines 22-24), in degrees,
before normalisation. -/
noncomputable def gmstPoly (julian_date : ℝ) : ℝ :=
  let d := julian_date - 2451545.0
  let T := d / 36525.0
  280.46061837 + 360.98564736629 * d + 0.000387933 * T ^ 2 - T ^ 3 / 38710000.0

/-- `gmst` (`backend.py` lines 21-25): the polynomial reduced mod 360
degrees and converted to radians. -/
noncomputable def gmst (julian_date : ℝ) : ℝ := radians (pymod (gmstPoly julian_date) 360)

/-- `teme_to_ecef` (`backend.py` lines 27-38): application of the matrix
`[[cos θ, sin θ, 0], [-sin θ, cos θ, 0], [0, 0, 1]]` with `θ = gmst jd`. -/
noncomputable def teme_to_ecef (p : ℝ × ℝ × ℝ) (julian_date : ℝ) : ℝ × ℝ × ℝ :=
  let θ := gmst julian_date
  (Real.cos θ * p.1 + Real.sin θ * p.2.1,
   -Real.sin θ * p.1 + Real.cos θ * p.2.1,
   p.2.2)

/-- The standard right-handed rotation matrix `R_z(θ)` applied to a
3-vector: `(cos θ · x - sin θ · y, sin θ · x + cos θ · y, z)`. -/
noncomputable def rotZ (θ : ℝ) (p : ℝ × ℝ × ℝ) : ℝ × ℝ × ℝ :=
  (Real.cos θ * p.1 - Real.sin θ * p.2.1,
   Real.sin θ * p.1 + Real.cos θ * p.2.1,
   p.2.2)

/-- WGS84 semi-major axis in km (`backend.py` line 51). -/
noncomputable def wgsA : ℝ := 6378.137

/-- WGS84 flattening (`backend.py` line 52). -/
noncomputable def wgsF : ℝ := 1 / 298.257223563

/-- WGS84 eccentricity squared, `e2 = 2 f - f²` (`backend.py` line 53). -/
noncomputable def wgsE2 : ℝ := 2 * wgsF - wgsF ^ 2

/-- `geodetic_to_cartesian_ecef` (`backend.py` lines 50-61): the closed-form
geodetic → Earth-fixed Cartesian conversion with
`N = a / sqrt(1 - e² sin² lat)`.  (The debug print on line 60 is a side
effect with no computational content.) -/
noncomputable def geodetic_to_cartesian_ecef (lat_deg lon_deg alt_km : ℝ) : ℝ × ℝ × ℝ :=
  let lat_rad := radians lat_deg
  let lon_rad := radians lon_deg
  let N := wgsA / Real.sqrt (1 - wgsE2 * Real.sin lat_rad ^ 2)
  ((N + alt_km) * Real.cos lat_rad * Real.cos lon_rad,
   (N + alt_km) * Real.cos lat_rad * Real.sin lon_rad,
   (N * (1 - wgsE2) + alt_km) * Real.sin lat_rad)

/-- Geodetic coordinates in the valid ranges: latitude strictly between the
poles, longitude in the half-open fundamental range, nonnegative altitude. -/
def validGeodetic (lat lon alt : ℝ) : Prop :=
  -90 < lat ∧ lat < 90 ∧ -180 < lon ∧ lon ≤ 180 ∧ 0 ≤ alt

/-- Modelled from the spec: `ecef_to_geodetic` (`backend.py` lines 40-48)
delegates the Earth-fixed → geodetic conversion to the external pyproj
library, whose implementation is not part of this repository; only the call
site is in `src`.  The spec requires it to be "the iterative/closed-form
geodetic solution consistent with the ellipsoid parameters", with "the same
ellipsoid constants shared by both directions": that is, its output is a
valid geodetic triple that the in-repository WGS84 forward map
`geodetic_to_cartesian_ecef` sends back to the given Cartesian point. -/
def ecef_to_geodetic_spec (p : ℝ × ℝ × ℝ) (lat lon alt : ℝ) : Prop :=
  validGeodetic lat lon alt ∧ geodetic_to_cartesian_ecef lat lon alt = p

/-! ### Scan footprint geometry and coverage test (`backend.py` lines 63-105) -/

/-- `lat_change` (`backend.py` lines 63-65). -/
noncomputable def lat_change (distance_km : ℝ) : ℝ :=
  distance_km / 6371 * (180 / Real.pi)

/-- `lon_change` (`backend.py` lines 67-72). -/
noncomputable def lon_change (lat_deg distance_km : ℝ) : ℝ :=
  let earth_radius_at_lat := 6371 * Real.cos (radians lat_deg)
  if |earth_radius_at_lat| < 1e-9 then 0
  else distance_km / earth_radius_at_lat * (180 / Real.pi)

/-- `get_scanning_square_corners` (`backend.py` lines 74-89), returning
`(min_lat, max_lat, min_lon, max_lon)`.  Out-of-range satellite coordinates
raise a `ValueError` that the function itself catches, returning the
degenerate all-zero box. -/
noncomputable def get_scanning_square_corners (sat_lat sat_lon scan_half_width_km : ℝ) :
    ℝ × ℝ × ℝ × ℝ :=
  if -90 ≤ sat_lat ∧ sat_lat ≤ 90 ∧ -180 ≤ sat_lon ∧ sat_lon ≤ 180 then
    let delta_lat := lat_change scan_half_width_km
    let delta_lon := lon_change sat_lat scan_half_width_km
    (sat_lat - delta_lat, sat_lat + delta_lat,
     pymod (sat_lon - delta_lon + 180) 360 - 180,
     pymod (sat_lon + delta_lon + 180) 360 - 180)
  else (0, 0, 0, 0)

/-- `is_point_in_scan_area` (`backend.py` lines 91-105) on a box
`(min_lat, max_lat, min_lon, max_lon)`.  (The `isinstance` guard is always
satisfied in the typed embedding, and no exception can escape the checked
arithmetic, so the two early-`False` paths are vacuous here.) -/
def is_point_in_scan_area (target_lat target_lon : ℝ) (scan_box : ℝ × ℝ × ℝ × ℝ) : Prop :=
  (scan_box.1 ≤ target_lat ∧ target_lat ≤ scan_box.2.1) ∧
  (if scan_box.2.2.1 ≤ scan_box.2.2.2 then
      scan_box.2.2.1 ≤ target_lon ∧ target_lon ≤ scan_box.2.2.2
    else
      (scan_box.2.2.1 ≤ target_lon ∧ target_lon ≤ 180) ∨
      (-180 ≤ target_lon ∧ target_lon ≤ scan_box.2.2.2))

/-! ### The orbit sampler `calculate_orbit_data` (`backend.py` lines 107-218) -/

/-- One row of `orbit_data_main`:
`[lat, lon, alt, error_code, is_covered_flag, min_lat, max_lat, min_lon, max_lon]`. -/
structure SampleRow where
  lat : ℝ
  lon : ℝ
  alt : ℝ
  code : ℤ
  covered : ℕ
  minLat : ℝ
  maxLat : ℝ
  minLon : ℝ
  maxLon : ℝ

/-- One entry of `covered_orbit_positions_with_time_and_box`. -/
structure CovRow where
  lat : ℝ
  lon : ℝ
  alt : ℝ
  time : ℚ
  box : ℝ × ℝ × ℝ × ℝ

/-- The distinct error messages `calculate_orbit_data` can return, in
structured form.  `allFailed` carries the per-code failure tally and the
computed sample count, which the Python code folds into the message text. -/
inductive ErrKind where
  | invalidTLE : ErrKind
  | tleParse : ErrKind
  | invalidRate : ErrKind
  | zeroDuration : ErrKind
  | epochParse : ErrKind
  | badDateFormat : ErrKind
  | dateConvert : ErrKind
  | allFailed : List (ℤ × ℕ) → ℤ → ErrKind

/-- The payload of a successful run.  `successes`, `found` and `failNote`
are the data interpolated into the success message (total propagated
points, number of coverage matches, and the per-code failure tally included
when nonempty). -/
structure OkRun where
  successes : ℕ
  found : ℕ
  failNote : List (ℤ × ℕ)
  rows : List SampleRow
  covered : List CovRow
  target : ℝ × ℝ
  start : ℚ
  liveGeo : ℝ × ℝ × ℝ × ℚ
  liveEcef : ℝ × ℝ × ℝ

/-- The result of one invocation of `calculate_orbit_data`, mirroring the
7-tuple the Python function returns: an error message with `None` data, the
live-only early return, or a success. -/
inductive CalcResult where
  | err : ErrKind → CalcResult
  | liveOnly : ℝ × ℝ × ℝ × ℚ → ℝ × ℝ × ℝ → CalcResult
  | ok : OkRun → CalcResult

/-- The external capabilities the engine consumes: `prop t` is the status
code and TEME position returned by `Satrec.sgp4` at the instant `t` of the
rational timeline (composed with the external `jday`); `jdOf t` is the
Julian date of `t`; `geo` is the pyproj Earth-fixed → geodetic conversion;
`now` is the current UTC instant; `parseOk` is whether
`Satrec.twoline2rv` accepts the element lines. -/
structure Caps where
  prop : ℚ → ℤ × (ℝ × ℝ × ℝ)
  jdOf : ℚ → ℝ
  geo : ℝ × ℝ × ℝ → ℝ × ℝ × ℝ
  now : ℚ
  parseOk : Bool

/-- The live snapshot (`backend.py` lines 114-129): on propagator success
the position is converted to geodetic and back to Cartesian; on failure the
fixed fallback `(0, 0, 0)` geodetic and `(0, 0, 6378.137 * 1.1)` Cartesian
is returned. -/
noncomputable def liveSnapshot (C : Caps) : (ℝ × ℝ × ℝ × ℚ) × (ℝ × ℝ × ℝ) :=
  let r := C.prop C.now
  if r.1 = 0 then
    let g := C.geo (teme_to_ecef r.2 (C.jdOf C.now))
    ((g.1, g.2.1, g.2.2, C.now), geodetic_to_cartesian_ecef g.1 g.2.1 g.2.2)
  else ((0, 0, 0, C.now), (0, 0, 6378.137 * 1.1))

/-- The rate-selector dispatch (`backend.py` lines 132-140): seconds,
minutes or hours times the sampling interval, `none` for any other
selector. -/
def stepSeconds (rate_choice : ℤ) (sampling_interval : ℚ) : Option ℚ :=
  if rate_choice = 1 then some sampling_interval
  else if rate_choice = 2 then some (sampling_interval * 60)
  else if rate_choice = 3 then some (sampling_interval * 3600)
  else none

/-- Start-epoch resolution (`backend.py` lines 149-175): either the TLE
epoch path or the `DD-MM-YYYY` date path, each with its own failure
messages.  The date path models the validation performed by the Python
`datetime` constructor. -/
def resolveStart (start_from_tle_date : Bool) (tle1 start_date_str : String) :
    Except ErrKind ℚ :=
  if start_from_tle_date then
    match resolveEpochFromElements tle1 with
    | some r => Except.ok (jan1Sec r.1 + (r.2.1 : ℚ) * 86400 + r.2.2)
    | none => Except.error ErrKind.epochParse
  else if date_format_check start_date_str then
    match start_date_str.toList with
    | [d1, d2, _, m1, m2, _, y1, y2, y3, y4] =>
      let day := digitsVal [d1, d2]
      let month := digitsVal [m1, m2]
      let year := digitsVal [y1, y2, y3, y4]
      if 1 ≤ year ∧ year ≤ 9999 ∧ 1 ≤ month ∧ month ≤ 12 ∧ 1 ≤ day ∧
          day ≤ daysInMonth year month then
        Except.ok (dateToSec year month day)
      else Except.error ErrKind.dateConvert
    | _ => Except.error ErrKind.badDateFormat
  else Except.error ErrKind.badDateFormat

/-- The direction factor of `backend.py` line 180:
`1 if requested_time_h_float >= 0 else -1`. -/
def runSign (requested_time_h : ℚ) : ℚ := if 0 ≤ requested_time_h then 1 else -1

/-- `num_samples` (`backend.py` lines 143-144):
`int(math.ceil(abs(requested_time_h * 3600) / step))`. -/
def numSamples (requested_time_h step : ℚ) : ℤ := ⌈|requested_time_h * 3600| / step⌉

/-- The sample instant of index `i` (`backend.py` line 180):
`start_datetime_utc + timedelta(seconds = i * step * sign)`. -/
def sampleTime (start step sgn : ℚ) (i : ℕ) : ℚ := start + i * step * sgn

/-- The time grid of a run: `range(num_samples + 1)` mapped through
`sampleTime`.  `n` is the signed `num_samples`; as in Python,
`range(n + 1)` is empty when `n + 1 ≤ 0`. -/
def sampleTimes (start step sgn : ℚ) (n : ℤ) : List ℚ :=
  (List.range (n + 1).toNat).map (sampleTime start step sgn)

/-- The per-sample record built by the loop body (`backend.py` lines
179-206): on propagator success the TEME position is converted to geodetic,
the scan box is built and the coverage flag computed; on failure the
defaults `0.0` and flag `0` initialised on lines 184-186 are kept. -/
noncomputable def sampleRow (C : Caps) (target_lat target_lon scan_area_size : ℝ) (t : ℚ) :
    SampleRow :=
  let r := C.prop t
  if r.1 = 0 then
    let g := C.geo (teme_to_ecef r.2 (C.jdOf t))
    let box := get_scanning_square_corners g.1 g.2.1 (scan_area_size / 2)
    let cov : ℕ := if is_point_in_scan_area target_lat target_lon box then 1 else 0
    ⟨g.1, g.2.1, g.2.2, 0, cov, box.1, box.2.1, box.2.2.1, box.2.2.2⟩
  else ⟨0, 0, 0, r.1, 0, 0, 0, 0, 0⟩

/-- The conditional append to `covered_orbit_positions_with_time_and_box`
performed by the loop body (`backend.py` line 196). -/
noncomputable def covEntry (C : Caps) (target_lat target_lon scan_area_size : ℝ) (t : ℚ) :
    Option CovRow :=
  let r := C.prop t
  if r.1 = 0 then
    let g := C.geo (teme_to_ecef r.2 (C.jdOf t))
    let box := get_scanning_square_corners g.1 g.2.1 (scan_area_size / 2)
    if is_point_in_scan_area target_lat target_lon box then
      some ⟨g.1, g.2.1, g.2.2, t, box⟩
    else none
  else none

/-- One update of the `sgp4_error_codes_encountered` dict
(`backend.py` line 202), preserving Python dict insertion order. -/
def tallyAdd (acc : List (ℤ × ℕ)) (c : ℤ) : List (ℤ × ℕ) :=
  if acc.any (fun p => p.1 == c) then
    acc.map (fun p => if p.1 = c then (p.1, p.2 + 1) else p)
  else acc ++ [(c, 1)]

/-- The failure tally accumulated over a run. -/
def runTally (prop : ℚ → ℤ × (ℝ × ℝ × ℝ)) (times : List ℚ) : List (ℤ × ℕ) :=
  times.foldl (fun acc t => if (prop t).1 = 0 then acc else tallyAdd acc (prop t).1) []

/-- The sampling loop and finalisation (`backend.py` lines 176-218): if no
sample propagates the aggregate failure is returned, otherwise the success
payload. -/
noncomputable def runSampling (C : Caps) (target_lat target_lon scan_area_size : ℝ)
    (start step sgn : ℚ) (n : ℤ) (live : (ℝ × ℝ × ℝ × ℚ) × (ℝ × ℝ × ℝ)) : CalcResult :=
  let times := sampleTimes start step sgn n
  let succ := times.countP (fun t => (C.prop t).1 == 0)
  if succ = 0 then CalcResult.err (ErrKind.allFailed (runTally C.prop times) n)
  else
    CalcResult.ok
      ⟨succ, (times.filterMap (covEntry C target_lat target_lon scan_area_size)).length,
       runTally C.prop times,
       times.map (sampleRow C target_lat target_lon scan_area_size),
       times.filterMap (covEntry C target_lat target_lon scan_area_size),
       (target_lat, target_lon), start, live.1, live.2⟩

/-- `calculate_orbit_data` (`backend.py` lines 107-218).  Validation,
live snapshot, live-only early return, rate and duration checks, epoch
resolution and the sampling loop, in source order.  (When the sampling
interval is exactly zero Python raises an uncaught `ZeroDivisionError`; the
claims only concern positive intervals, where the embedding is exact.) -/
noncomputable def calculate_orbit_data (C : Caps)
    (tle1 tle2 start_date_str : String) (rate_choice : ℤ) (requested_time_h : ℚ)
    (start_from_tle_date : Bool) (target_lat target_lon scan_area_size : ℝ)
    (sampling_interval : ℚ) (live_only : Bool) : CalcResult :=
  if ¬(tle1.length = 69 ∧ tle2.length = 69) then CalcResult.err ErrKind.invalidTLE
  else if C.parseOk = false then CalcResult.err ErrKind.tleParse
  else if live_only then CalcResult.liveOnly (liveSnapshot C).1 (liveSnapshot C).2
  else
    match stepSeconds rate_choice sampling_interval with
    | none => CalcResult.err ErrKind.invalidRate
    | some step =>
      if requested_time_h = 0 then CalcResult.err ErrKind.zeroDuration
      else
        match resolveStart start_from_tle_date tle1 start_date_str with
        | Except.error e => CalcResult.err e
        | Except.ok start =>
          runSampling C target_lat target_lon scan_area_size start step
            (runSign requested_time_h) (numSamples requested_time_h step) (liveSnapshot C)

/-- A syntactically well-formed first element line whose epoch field is
`24001.50000000`: epoch year `24`, fractional day-of-year `1.5`. -/
def tleLineC1 : String := "1 25544U 98067A   24001.50000000  .00016717  00000-0  10270-3 0  9005"

/-- A second element line of the required 69-character length. -/
def tleLine2 : String := "2 25544  51.6416 247.4627 0006703 130.5360 325.0288 15.72125391563537"

/-- Concrete capabilities whose propagator always succeeds at the origin. -/
noncomputable def capsAllOk : Caps :=
  ⟨fun _ => (0, (0, 0, 0)), fun _ => 0, fun _ => (0, 0, 0), 0, true⟩

/-- Concrete capabilities whose propagator always fails with code 1. -/
noncomputable def capsAllFail : Caps :=
  ⟨fun _ => (1, (0, 0, 0)), fun _ => 0, fun _ => (0, 0, 0), 0, true⟩

/-- Concrete capabilities whose propagator succeeds but whose geodetic
conversion yields an out-of-range latitude. -/
noncomputable def capsOutOfRange : Caps :=
  ⟨fun _ => (0, (0, 0, 0)), fun _ => 0, fun _ => (500, 0, 0), 0, true⟩

/-! ### Evaluation of the epoch decoder on the concrete line -/

theorem tleLineC1_doy : decToRat? (stripSpaces (strSlice tleLineC1 20 32)) = some (3 / 2) := by
  have hdv1 : digitsVal ['0', '0', '1'] = 1 := by decide
  have hdv2 : digitsVal ['5', '0', '0', '0', '0', '0', '0', '0'] = 50000000 := by decide
  have h : decToRat? (stripSpaces (strSlice tleLineC1 20 32)) =
      some ((digitsVal ['0', '0', '1'] : ℚ) +
        (digitsVal ['5', '0', '0', '0', '0', '0', '0', '0'] : ℚ) / (10 : ℚ) ^ 8) := by rfl
  rw [h, hdv1, hdv2]
  norm_num

theorem tleLineC1_epoch : resolveEpochFromElements tleLineC1 = some (2024, 0, 129600) := by
  have h : resolveEpochFromElements tleLineC1 =
      match digitsToNat? (stripSpaces (strSlice tleLineC1 18 20)),
            decToRat? (stripSpaces (strSlice tleLineC1 20 32)) with
      | some ys, some doy =>
        some (ys + (if ys < 57 then 2000 else 1900), ⌊doy⌋ - 1,
          (doy - ((⌊doy⌋ - 1 : ℤ) : ℚ)) * 86400)
      | _, _ => none := rfl
  rw [h, tleLineC1_doy,
    show digitsToNat? (stripSpaces (strSlice tleLineC1 18 20)) = some 24 from by decide]
  have hfl : ⌊(3 / 2 : ℚ)⌋ = 1 := by norm_num
  simp only [hfl]
  norm_num

theorem resolveStart_tleLineC1 : resolveStart true tleLineC1 "" = Except.ok 63839793600 := by
  have h : resolveStart true tleLineC1 "" =
      match resolveEpochFromElements tleLineC1 with
      | some r => Except.ok (jan1Sec r.1 + (r.2.1 : ℚ) * 86400 + r.2.2)
      | none => Except.error ErrKind.epochParse := by rfl
  rw [h, tleLineC1_epoch]
  have hj : jan1Sec 2024 = 63839664000 := by
    unfold jan1Sec
    norm_num
  simp only [hj]
  norm_num

/-! ### Claim C1 -/

/-- Claim C1 (code bug evidence).  The spec states that a line encoding
year `24`, day-of-year `1.5` resolves to 2024-01-01 12:00:00 UTC, which is
43200 seconds after January 1st 00:00.  The line below does encode year
`24` and day-of-year `1.5` (first two conjuncts), but the code resolves it
to January 1st of 2024 plus `days_offset = 0` days plus `129600` seconds,
i.e. 2024-01-02 12:00:00 UTC: `fraction_of_day = day_of_year_float -
days_offset` on `backend.py` line 155 subtracts `int(doy) - 1` instead of
`int(doy)`, leaving the whole epoch one day late. -/
theorem claimC1_epoch_one_day_late :
    digitsToNat? (stripSpaces (strSlice tleLineC1 18 20)) = some 24 ∧
    decToRat? (stripSpaces (strSlice tleLineC1 20 32)) = some (3 / 2) ∧
    resolveEpochFromElements tleLineC1 = some (2024, 0, 129600) ∧
    ((0 : ℤ) * 86400 + (129600 : ℚ) ≠ 12 * 3600) :=
  ⟨by decide, tleLineC1_doy, tleLineC1_epoch, by norm_num⟩

/-! ### Helper lemmas about `pymod` and the seam footprint -/

theorem pymod_nonneg (x m : ℝ) (hm : 0 < m) : 0 ≤ pymod x m := by
  unfold pymod
  have h1 : (⌊x / m⌋ : ℝ) ≤ x / m := Int.floor_le _
  have hx : m * (x / m) = x := by field_simp
  nlinarith [mul_le_mul_of_nonneg_left h1 hm.le]

theorem pymod_lt (x m : ℝ) (hm : 0 < m) : pymod x m < m := by
  unfold pymod
  have h2 : x / m < ⌊x / m⌋ + 1 := Int.lt_floor_add_one _
  have hx : m * (x / m) = x := by field_simp
  nlinarith [mul_lt_mul_of_pos_left h2 hm]

theorem pymod_eq_self {x m : ℝ} (hm : 0 < m) (h0 : 0 ≤ x) (h1 : x < m) : pymod x m = x := by
  unfold pymod
  have hz : ⌊x / m⌋ = 0 := by
    rw [Int.floor_eq_zero_iff]
    exact ⟨div_nonneg h0 hm.le, (div_lt_one hm).mpr h1⟩
  rw [hz]
  push_cast
  ring

theorem pymod_eq_sub {x m : ℝ} (hm : 0 < m) (h0 : m ≤ x) (h1 : x < 2 * m) :
    pymod x m = x - m := by
  unfold pymod
  have hz : ⌊x / m⌋ = 1 := by
    rw [Int.floor_eq_iff]
    constructor
    · push_cast
      rw [le_div_iff₀ hm]
      linarith
    · push_cast
      rw [div_lt_iff₀ hm]
      linarith
  rw [hz]
  push_cast
  ring

theorem lat_change_200 : lat_change 200 = 36000 / (6371 * Real.pi) := by
  unfold lat_change
  rw [div_mul_div_comm]
  norm_num

theorem lon_change_0_200 : lon_change 0 200 = 36000 / (6371 * Real.pi) := by
  simp only [lon_change, radians, zero_mul, Real.cos_zero, mul_one]
  rw [if_neg (by norm_num), div_mul_div_comm]
  norm_num

theorem delta200_bounds :
    1 < 36000 / (6371 * Real.pi) ∧ 36000 / (6371 * Real.pi) < 2 := by
  have hπ1 := Real.pi_gt_three
  have hπ2 := Real.pi_lt_d2
  constructor
  · rw [lt_div_iff₀ (by positivity)]
    nlinarith
  · rw [div_lt_iff₀ (by positivity)]
    nlinarith

theorem seam_box : get_scanning_square_corners 0 179.9 200 =
    (-(36000 / (6371 * Real.pi)), 36000 / (6371 * Real.pi),
     179.9 - 36000 / (6371 * Real.pi), 36000 / (6371 * Real.pi) - 180.1) := by
  have hδ := delta200_bounds
  simp only [get_scanning_square_corners, lat_change_200, lon_change_0_200]
  rw [if_pos (by norm_num)]
  simp only [Prod.mk.injEq]
  refine ⟨by ring, by ring, ?_, ?_⟩
  · rw [pymod_eq_self (by norm_num) (by linarith [hδ.2]) (by linarith [hδ.1])]
    ring
  · rw [pymod_eq_sub (by norm_num) (by linarith [hδ.1]) (by linarith [hδ.2])]
    ring

/-! ### Claim C3 -/

/-- Claim C3: the coverage test is exactly the closed-interval latitude
check conjoined with the branch on wrapped vs unwrapped longitude
intervals, and the footprint built at `(0, 179.9)` with half-width 200 km
is wrapped (`min_lon > max_lon`) and covers targets at longitudes `179.95`
and `-179.95` on the equator. -/
theorem claimC3_coverage_test_and_seam_wrap :
    (∀ (tlat tlon : ℝ) (box : ℝ × ℝ × ℝ × ℝ),
      is_point_in_scan_area tlat tlon box ↔
        ((box.1 ≤ tlat ∧ tlat ≤ box.2.1) ∧
         ((box.2.2.1 ≤ box.2.2.2 ∧ box.2.2.1 ≤ tlon ∧ tlon ≤ box.2.2.2) ∨
          (box.2.2.2 < box.2.2.1 ∧
           ((box.2.2.1 ≤ tlon ∧ tlon ≤ 180) ∨ (-180 ≤ tlon ∧ tlon ≤ box.2.2.2)))))) ∧
    (get_scanning_square_corners 0 179.9 200).2.2.2 <
      (get_scanning_square_corners 0 179.9 200).2.2.1 ∧
    is_point_in_scan_area 0 179.95 (get_scanning_square_corners 0 179.9 200) ∧
    is_point_in_scan_area 0 (-179.95) (get_scanning_square_corners 0 179.9 200) := by
  have hδ := delta200_bounds
  refine ⟨?_, ?_, ?_, ?_⟩
  · intro tlat tlon box
    unfold is_point_in_scan_area
    by_cases h : box.2.2.1 ≤ box.2.2.2
    · have h' := not_lt.mpr h
      rw [if_pos h]
      tauto
    · have h' := not_le.mp h
      rw [if_neg h]
      tauto
  · rw [seam_box]
    dsimp only
    linarith [hδ.1, hδ.2]
  · rw [seam_box]
    unfold is_point_in_scan_area
    dsimp only
    rw [if_neg (not_le.mpr (by linarith [hδ.1, hδ.2]))]
    exact ⟨⟨by linarith [hδ.2], by linarith [hδ.1]⟩, Or.inl ⟨by linarith [hδ.1], by norm_num⟩⟩
  · rw [seam_box]
    unfold is_point_in_scan_area
    dsimp only
    rw [if_neg (not_le.mpr (by linarith [hδ.1, hδ.2]))]
    exact ⟨⟨by linarith [hδ.2], by linarith [hδ.1]⟩,
      Or.inr ⟨by norm_num, by linarith [hδ.1]⟩⟩

/-! ### Claim C6 -/

/-- Claim C6 counterexample: the footprint built at satellite latitude 89
with half-width 200 km has `max_lat > 90`, so the claimed invariant that
both latitude bounds lie in `[-90, 90]` is false: the code never clamps
the latitude bounds. -/
theorem claimC6_counterexample : 90 < (get_scanning_square_corners 89 0 200).2.1 := by
  have hδ := delta200_bounds
  simp only [get_scanning_square_corners, lat_change_200]
  rw [if_pos (by norm_num)]
  dsimp only
  linarith [hδ.1]

/-- Claim C6 as amended: every footprint box built with a nonnegative
half-width satisfies `min_lat ≤ max_lat`, and both longitude bounds lie in
`[-180, 180]`; the latitude bounds are not clamped to `[-90, 90]`. -/
theorem claimC6_amended_invariants : ∀ lat lon hw : ℝ, 0 ≤ hw →
    ((get_scanning_square_corners lat lon hw).1 ≤ (get_scanning_square_corners lat lon hw).2.1 ∧
     -180 ≤ (get_scanning_square_corners lat lon hw).2.2.1 ∧
     (get_scanning_square_corners lat lon hw).2.2.1 ≤ 180 ∧
     -180 ≤ (get_scanning_square_corners lat lon hw).2.2.2 ∧
     (get_scanning_square_corners lat lon hw).2.2.2 ≤ 180) := by
  intro lat lon hw hhw
  by_cases hv : -90 ≤ lat ∧ lat ≤ 90 ∧ -180 ≤ lon ∧ lon ≤ 180
  · simp only [get_scanning_square_corners]
    rw [if_pos hv]
    dsimp only
    have hd : 0 ≤ lat_change hw := by
      unfold lat_change
      exact mul_nonneg (div_nonneg hhw (by norm_num)) (by positivity)
    have p1 := pymod_nonneg (lon - lon_change lat hw + 180) 360 (by norm_num)
    have p2 := pymod_lt (lon - lon_change lat hw + 180) 360 (by norm_num)
    have p3 := pymod_nonneg (lon + lon_change lat hw + 180) 360 (by norm_num)
    have p4 := pymod_lt (lon + lon_change lat hw + 180) 360 (by norm_num)
    exact ⟨by linarith, by linarith, by linarith, by linarith, by linarith⟩
  · simp only [get_scanning_square_corners]
    rw [if_neg hv]
    norm_num

/-- Witness for the amended claim C6 at `lat = lon = 0`, `hw = 0`. -/
theorem claimC6_amended_witness : (0 : ℝ) ≤ 0 ∧
    ((get_scanning_square_corners 0 0 0).1 ≤ (get_scanning_square_corners 0 0 0).2.1 ∧
     -180 ≤ (get_scanning_square_corners 0 0 0).2.2.1 ∧
     (get_scanning_square_corners 0 0 0).2.2.1 ≤ 180 ∧
     -180 ≤ (get_scanning_square_corners 0 0 0).2.2.2 ∧
     (get_scanning_square_corners 0 0 0).2.2.2 ≤ 180) :=
  ⟨le_refl 0, claimC6_amended_invariants 0 0 0 (le_refl 0)⟩

/-! ### Claim C7 -/

/-- Claim C7: the inertial → Earth-fixed transform is the rotation of the
position vector about the polar axis by `-gmst jd`, i.e. the standard
right-handed rotation matrix `R_z` evaluated at `-gmst jd`; the GMST
polynomial is normalised into `[0, 360)` degrees and the returned angle is
that value in radians, hence lies in `[0, 2π)`. -/
theorem claimC7_rotation_by_neg_gmst : ∀ (p : ℝ × ℝ × ℝ) (jd : ℝ),
    teme_to_ecef p jd = rotZ (-(gmst jd)) p ∧
    pymod (gmstPoly jd) 360 ∈ Set.Ico (0 : ℝ) 360 ∧
    gmst jd ∈ Set.Ico 0 (2 * Real.pi) := by
  intro p jd
  have q1 := pymod_nonneg (gmstPoly jd) 360 (by norm_num)
  have q2 := pymod_lt (gmstPoly jd) 360 (by norm_num)
  refine ⟨?_, Set.mem_Ico.mpr ⟨q1, q2⟩, Set.mem_Ico.mpr ⟨?_, ?_⟩⟩
  · simp only [teme_to_ecef, rotZ, Real.cos_neg, Real.sin_neg, Prod.mk.injEq, and_true]
    ring
  · have hmod : gmst jd = pymod (gmstPoly jd) 360 * (Real.pi / 180) := rfl
    rw [hmod]
    exact mul_nonneg q1 (by positivity)
  · have hmod : gmst jd = pymod (gmstPoly jd) 360 * (Real.pi / 180) := rfl
    rw [hmod]
    have := mul_lt_mul_of_pos_right q2 (show (0 : ℝ) < Real.pi / 180 by positivity)
    calc pymod (gmstPoly jd) 360 * (Real.pi / 180) < 360 * (Real.pi / 180) := this
    _ = 2 * Real.pi := by ring

/-! ### Claim C10 -/

/-- Claim C10: out-of-range satellite coordinates degenerate the footprint
to the all-zero box; the coverage test on the all-zero box holds exactly
for the target `(0, 0)`; consequently a loop sample that propagates
successfully but whose geodetic position is out of range marks the target
`(0, 0)` as covered. -/
theorem claimC10_degenerate_box :
    (∀ lat lon hw : ℝ, ¬(-90 ≤ lat ∧ lat ≤ 90 ∧ -180 ≤ lon ∧ lon ≤ 180) →
      get_scanning_square_corners lat lon hw = (0, 0, 0, 0)) ∧
    (∀ tlat tlon : ℝ,
      is_point_in_scan_area tlat tlon (0, 0, 0, 0) ↔ tlat = 0 ∧ tlon = 0) ∧
    (∀ (C : Caps) (scanSize : ℝ) (t : ℚ), (C.prop t).1 = 0 →
      ¬(-90 ≤ (C.geo (teme_to_ecef (C.prop t).2 (C.jdOf t))).1 ∧
        (C.geo (teme_to_ecef (C.prop t).2 (C.jdOf t))).1 ≤ 90 ∧
        -180 ≤ (C.geo (teme_to_ecef (C.prop t).2 (C.jdOf t))).2.1 ∧
        (C.geo (teme_to_ecef (C.prop t).2 (C.jdOf t))).2.1 ≤ 180) →
      (sampleRow C 0 0 scanSize t).covered = 1) := by
  have part1 : ∀ lat lon hw : ℝ, ¬(-90 ≤ lat ∧ lat ≤ 90 ∧ -180 ≤ lon ∧ lon ≤ 180) →
      get_scanning_square_corners lat lon hw = (0, 0, 0, 0) := by
    intro lat lon hw h
    simp only [get_scanning_square_corners]
    rw [if_neg h]
  have part2 : ∀ tlat tlon : ℝ,
      is_point_in_scan_area tlat tlon (0, 0, 0, 0) ↔ tlat = 0 ∧ tlon = 0 := by
    intro tlat tlon
    unfold is_point_in_scan_area
    rw [if_pos (le_refl (0 : ℝ))]
    constructor
    · rintro ⟨⟨h1, h2⟩, h3, h4⟩
      exact ⟨le_antisymm h2 h1, le_antisymm h4 h3⟩
    · rintro ⟨h1, h2⟩
      subst h1
      subst h2
      exact ⟨⟨le_refl 0, le_refl 0⟩, le_refl 0, le_refl 0⟩
  refine ⟨part1, part2, ?_⟩
  intro C scanSize t hcode hrange
  simp only [sampleRow]
  rw [if_pos hcode]
  dsimp only
  rw [part1 _ _ _ hrange]
  rw [if_pos ((part2 0 0).mpr ⟨rfl, rfl⟩)]

/-- Witness for claim C10 at concrete inputs: the out-of-range latitude
500 degenerates the footprint, and a sample of `capsOutOfRange` covers the
target `(0, 0)`. -/
theorem claimC10_degenerate_box_witness :
    (¬((-90 : ℝ) ≤ 500 ∧ (500 : ℝ) ≤ 90 ∧ (-180 : ℝ) ≤ 0 ∧ (0 : ℝ) ≤ 180)) ∧
    get_scanning_square_corners 500 0 100 = (0, 0, 0, 0) ∧
    (sampleRow capsOutOfRange 0 0 100 0).covered = 1 := by
  have hr : ¬((-90 : ℝ) ≤ 500 ∧ (500 : ℝ) ≤ 90 ∧ (-180 : ℝ) ≤ 0 ∧ (0 : ℝ) ≤ 180) := by
    norm_num
  refine ⟨hr, claimC10_degenerate_box.1 500 0 100 hr, ?_⟩
  refine claimC10_degenerate_box.2.2 capsOutOfRange 100 0 rfl ?_
  show ¬((-90 : ℝ) ≤ (500, (0 : ℝ), (0 : ℝ)).1 ∧ _ ∧ _ ∧ _)
  norm_num [capsOutOfRange]

/-! ### Helper lemmas for claim C2: the WGS84 forward map is injective on
valid geodetic coordinates -/

theorem wgsA_pos : 0 < wgsA := by
  unfold wgsA
  norm_num

theorem wgsE2_pos : 0 < wgsE2 := by
  unfold wgsE2 wgsF
  norm_num

theorem wgsE2_lt_quarter : wgsE2 < 1 / 4 := by
  unfold wgsE2 wgsF
  norm_num

set_option maxHeartbeats 1000000 in
/-- Strict growth of `s ↦ P s / c - e² (a / w) s` between two points of the
first quadrant, where `c = √(1 - s²)`, `w = √(1 - e² s²)` and the first
point satisfies the altitude constraint `a c₁ ≤ P w₁` (i.e. `h₁ ≥ 0`).
This is the algebraic heart of the uniqueness of geodetic coordinates. -/
theorem zf_strict_aux (P s₁ c₁ w₁ s₂ c₂ w₂ : ℝ)
    (hs1 : 0 < s₁) (h12 : s₁ < s₂) (hs2 : s₂ < 1)
    (hc1 : 0 < c₁) (hc2 : 0 < c₂) (hw1 : 0 < w₁) (hw2 : 0 < w₂)
    (hc1s : c₁ ^ 2 = 1 - s₁ ^ 2) (hc2s : c₂ ^ 2 = 1 - s₂ ^ 2)
    (hw1s : w₁ ^ 2 = 1 - wgsE2 * s₁ ^ 2) (hw2s : w₂ ^ 2 = 1 - wgsE2 * s₂ ^ 2)
    (hP : wgsA * c₁ ≤ P * w₁) :
    P * s₁ / c₁ - wgsE2 * (wgsA / w₁) * s₁ < P * s₂ / c₂ - wgsE2 * (wgsA / w₂) * s₂ := by
  have he2 := wgsE2_pos
  have heh := wgsE2_lt_quarter
  have ha := wgsA_pos
  have hs2pos : 0 < s₂ := hs1.trans h12
  have hssq : s₁ ^ 2 < s₂ ^ 2 := by nlinarith
  have hD : 0 < s₂ * c₁ - s₁ * c₂ := by
    have hid : (s₂ * c₁) ^ 2 - (s₁ * c₂) ^ 2 = s₂ ^ 2 - s₁ ^ 2 := by
      rw [mul_pow, mul_pow, hc1s, hc2s]
      ring
    nlinarith [mul_pos hs1 hc2, mul_pos hs2pos hc1]
  have hE : 0 < s₂ * w₁ - s₁ * w₂ := by
    have hid : (s₂ * w₁) ^ 2 - (s₁ * w₂) ^ 2 = s₂ ^ 2 - s₁ ^ 2 := by
      rw [mul_pow, mul_pow, hw1s, hw2s]
      ring
    nlinarith [mul_pos hs1 hw2, mul_pos hs2pos hw1]
  have hc1le : c₁ ≤ 1 := by nlinarith [sq_nonneg s₁]
  have hc2le : c₂ ≤ 1 := by nlinarith [sq_nonneg s₂]
  have hw1le : w₁ ≤ 1 := by nlinarith [mul_pos (mul_pos he2 hs1) hs1]
  have hw2le : w₂ ≤ 1 := by nlinarith [mul_pos (mul_pos he2 hs2pos) hs2pos]
  have hw1ge : 1 - wgsE2 ≤ w₁ := by nlinarith [sq_nonneg s₁, sq_nonneg (1 - s₁ ^ 2)]
  have hw2ge : 1 - wgsE2 ≤ w₂ := by nlinarith [sq_nonneg s₂, sq_nonneg (1 - s₂ ^ 2)]
  have hcc : c₁ * c₂ ≤ 1 := by nlinarith [mul_pos hc1 hc2]
  have hww : (1 - wgsE2) * (1 - wgsE2) ≤ w₁ * w₂ :=
    mul_le_mul hw1ge hw2ge (by linarith) hw1.le
  have hkey : wgsE2 * c₂ * (s₂ * c₁ + s₁ * c₂) < w₂ * (s₂ * w₁ + s₁ * w₂) := by
    have h1 : wgsE2 * (c₁ * c₂) < w₁ * w₂ := by nlinarith [mul_pos hc1 hc2]
    have h2 : wgsE2 * c₂ ^ 2 < w₂ ^ 2 := by nlinarith [mul_pos (mul_pos he2 hs2pos) hs2pos]
    nlinarith [mul_lt_mul_of_pos_left h1 hs2pos, mul_lt_mul_of_pos_left h2 hs1]
  have hDid : (s₂ * c₁ - s₁ * c₂) * (s₂ * c₁ + s₁ * c₂) = s₂ ^ 2 - s₁ ^ 2 := by
    linear_combination s₂ ^ 2 * hc1s - s₁ ^ 2 * hc2s
  have hEid : (s₂ * w₁ - s₁ * w₂) * (s₂ * w₁ + s₁ * w₂) = s₂ ^ 2 - s₁ ^ 2 := by
    linear_combination s₂ ^ 2 * hw1s - s₁ ^ 2 * hw2s
  have hSC : 0 < s₂ * c₁ + s₁ * c₂ := by positivity
  have hSW : 0 < s₂ * w₁ + s₁ * w₂ := by positivity
  have hs2sq : 0 < s₂ ^ 2 - s₁ ^ 2 := by linarith
  have hmain : wgsE2 * c₂ * (s₂ * w₁ - s₁ * w₂) < w₂ * (s₂ * c₁ - s₁ * c₂) := by
    have hL : wgsE2 * c₂ * (s₂ * w₁ - s₁ * w₂) * ((s₂ * c₁ + s₁ * c₂) * (s₂ * w₁ + s₁ * w₂)) =
        wgsE2 * c₂ * (s₂ * c₁ + s₁ * c₂) * (s₂ ^ 2 - s₁ ^ 2) := by
      linear_combination (wgsE2 * c₂ * (s₂ * c₁ + s₁ * c₂)) * hEid
    have hR : w₂ * (s₂ * c₁ - s₁ * c₂) * ((s₂ * c₁ + s₁ * c₂) * (s₂ * w₁ + s₁ * w₂)) =
        w₂ * (s₂ * w₁ + s₁ * w₂) * (s₂ ^ 2 - s₁ ^ 2) := by
      linear_combination (w₂ * (s₂ * w₁ + s₁ * w₂)) * hDid
    have h3 : wgsE2 * c₂ * (s₂ * w₁ - s₁ * w₂) * ((s₂ * c₁ + s₁ * c₂) * (s₂ * w₁ + s₁ * w₂)) <
        w₂ * (s₂ * c₁ - s₁ * c₂) * ((s₂ * c₁ + s₁ * c₂) * (s₂ * w₁ + s₁ * w₂)) := by
      rw [hL, hR]
      exact mul_lt_mul_of_pos_right hkey hs2sq
    exact lt_of_mul_lt_mul_right h3 (mul_pos hSC hSW).le
  have hnum : 0 < P * w₁ * w₂ * (s₂ * c₁ - s₁ * c₂) -
      wgsE2 * wgsA * c₁ * c₂ * (s₂ * w₁ - s₁ * w₂) := by
    have h4 : wgsA * c₁ * (wgsE2 * c₂ * (s₂ * w₁ - s₁ * w₂)) <
        wgsA * c₁ * (w₂ * (s₂ * c₁ - s₁ * c₂)) :=
      mul_lt_mul_of_pos_left hmain (mul_pos ha hc1)
    have h5 : wgsA * c₁ * (w₂ * (s₂ * c₁ - s₁ * c₂)) ≤ P * w₁ * (w₂ * (s₂ * c₁ - s₁ * c₂)) :=
      mul_le_mul_of_nonneg_right hP (mul_pos hw2 hD).le
    nlinarith [h4, h5]
  have hrepr : P * s₂ / c₂ - wgsE2 * (wgsA / w₂) * s₂ -
      (P * s₁ / c₁ - wgsE2 * (wgsA / w₁) * s₁) =
      (P * w₁ * w₂ * (s₂ * c₁ - s₁ * c₂) - wgsE2 * wgsA * c₁ * c₂ * (s₂ * w₁ - s₁ * w₂)) /
        (c₁ * c₂ * (w₁ * w₂)) := by
    field_simp
    ring
  have hfinal : 0 < P * s₂ / c₂ - wgsE2 * (wgsA / w₂) * s₂ -
      (P * s₁ / c₁ - wgsE2 * (wgsA / w₁) * s₁) := by
    rw [hrepr]
    exact div_pos hnum (by positivity)
  linarith

set_option maxHeartbeats 1000000 in
/-- Strict monotonicity of the vertical coordinate `Z = (N (1 - e²) + h) s`
along the latitude sine, for two geodetic points with nonnegative altitudes
that share the same horizontal distance `P = (N + h) c`. -/
theorem z_strict (P s₁ c₁ w₁ h₁ s₂ c₂ w₂ h₂ : ℝ)
    (hc1 : 0 < c₁) (hc2 : 0 < c₂) (hw1 : 0 < w₁) (hw2 : 0 < w₂)
    (hh1 : 0 ≤ h₁) (hh2 : 0 ≤ h₂)
    (hc1s : c₁ ^ 2 = 1 - s₁ ^ 2) (hc2s : c₂ ^ 2 = 1 - s₂ ^ 2)
    (hw1s : w₁ ^ 2 = 1 - wgsE2 * s₁ ^ 2) (hw2s : w₂ ^ 2 = 1 - wgsE2 * s₂ ^ 2)
    (hP1 : P = (wgsA / w₁ + h₁) * c₁) (hP2 : P = (wgsA / w₂ + h₂) * c₂)
    (h12 : s₁ < s₂) :
    (wgsA / w₁ * (1 - wgsE2) + h₁) * s₁ < (wgsA / w₂ * (1 - wgsE2) + h₂) * s₂ := by
  have he2 := wgsE2_pos
  have heh := wgsE2_lt_quarter
  have ha := wgsA_pos
  have hs1sq : s₁ ^ 2 < 1 := by nlinarith
  have hs2sq : s₂ ^ 2 < 1 := by nlinarith
  have hs1lt : s₁ < 1 := by nlinarith
  have hs1gt : -1 < s₁ := by nlinarith
  have hs2lt : s₂ < 1 := by nlinarith
  have hs2gt : -1 < s₂ := by nlinarith
  have hN1 : 0 < wgsA / w₁ := div_pos ha hw1
  have hN2 : 0 < wgsA / w₂ := div_pos ha hw2
  have hz1 : (wgsA / w₁ * (1 - wgsE2) + h₁) * s₁ =
      (P / c₁ - wgsE2 * (wgsA / w₁)) * s₁ := by
    rw [hP1]
    field_simp
    ring
  have hz2 : (wgsA / w₂ * (1 - wgsE2) + h₂) * s₂ =
      (P / c₂ - wgsE2 * (wgsA / w₂)) * s₂ := by
    rw [hP2]
    field_simp
    ring
  have hd1 : P / c₁ = wgsA / w₁ + h₁ := by
    rw [hP1]
    field_simp
    ring
  have hd2 : P / c₂ = wgsA / w₂ + h₂ := by
    rw [hP2]
    field_simp
    ring
  have hcoef1 : 0 < P / c₁ - wgsE2 * (wgsA / w₁) := by
    rw [hd1]
    nlinarith
  have hcoef2 : 0 < P / c₂ - wgsE2 * (wgsA / w₂) := by
    rw [hd2]
    nlinarith
  have hPw1 : wgsA * c₁ ≤ P * w₁ := by
    have hexp : P * w₁ = wgsA * c₁ + h₁ * c₁ * w₁ := by
      rw [hP1]
      field_simp
      ring
    nlinarith [mul_nonneg (mul_nonneg hh1 hc1.le) hw1.le]
  have hPw2 : wgsA * c₂ ≤ P * w₂ := by
    have hexp : P * w₂ = wgsA * c₂ + h₂ * c₂ * w₂ := by
      rw [hP2]
      field_simp
      ring
    nlinarith [mul_nonneg (mul_nonneg hh2 hc2.le) hw2.le]
  rw [hz1, hz2]
  rcases lt_trichotomy s₁ 0 with hn1 | he1 | hp1
  · rcases lt_trichotomy s₂ 0 with hn2 | hz0 | hp2
    · have haux := zf_strict_aux P (-s₂) c₂ w₂ (-s₁) c₁ w₁ (by linarith) (by linarith)
        (by linarith) hc2 hc1 hw2 hw1 (by rw [hc2s]; ring) (by rw [hc1s]; ring)
        (by rw [hw2s]; ring) (by rw [hw1s]; ring) hPw2
      have e1 : (P / c₁ - wgsE2 * (wgsA / w₁)) * s₁ =
          -(P * -s₁ / c₁ - wgsE2 * (wgsA / w₁) * -s₁) := by ring
      have e2 : (P / c₂ - wgsE2 * (wgsA / w₂)) * s₂ =
          -(P * -s₂ / c₂ - wgsE2 * (wgsA / w₂) * -s₂) := by ring
      rw [e1, e2]
      exact neg_lt_neg haux
    · subst hz0
      have hL : (P / c₁ - wgsE2 * (wgsA / w₁)) * s₁ < 0 :=
        mul_neg_of_pos_of_neg hcoef1 hn1
      simpa using hL
    · have hL : (P / c₁ - wgsE2 * (wgsA / w₁)) * s₁ < 0 :=
        mul_neg_of_pos_of_neg hcoef1 hn1
      have hR : 0 < (P / c₂ - wgsE2 * (wgsA / w₂)) * s₂ := mul_pos hcoef2 hp2
      linarith
  · have hp2 : 0 < s₂ := by linarith
    have hR : 0 < (P / c₂ - wgsE2 * (wgsA / w₂)) * s₂ := mul_pos hcoef2 hp2
    rw [he1, mul_zero]
    exact hR
  · have haux := zf_strict_aux P s₁ c₁ w₁ s₂ c₂ w₂ hp1 h12 hs2lt hc1 hc2 hw1 hw2
      hc1s hc2s hw1s hw2s hPw1
    have e1 : (P / c₁ - wgsE2 * (wgsA / w₁)) * s₁ =
        P * s₁ / c₁ - wgsE2 * (wgsA / w₁) * s₁ := by ring
    have e2 : (P / c₂ - wgsE2 * (wgsA / w₂)) * s₂ =
        P * s₂ / c₂ - wgsE2 * (wgsA / w₂) * s₂ := by ring
    rw [e1, e2]
    exact haux

theorem lat_rad_mem (lat : ℝ) (h1 : -90 < lat) (h2 : lat < 90) :
    radians lat ∈ Set.Ioo (-(Real.pi / 2)) (Real.pi / 2) := by
  have hπ := Real.pi_pos
  unfold radians
  constructor
  · nlinarith [mul_pos (show (0 : ℝ) < lat + 90 by linarith)
      (show (0 : ℝ) < Real.pi / 180 by positivity)]
  · nlinarith [mul_pos (show (0 : ℝ) < 90 - lat by linarith)
      (show (0 : ℝ) < Real.pi / 180 by positivity)]

theorem lon_rad_bounds (lon : ℝ) (h1 : -180 < lon) (h2 : lon ≤ 180) :
    -Real.pi < radians lon ∧ radians lon ≤ Real.pi := by
  have hπ := Real.pi_pos
  unfold radians
  constructor
  · nlinarith [mul_pos (show (0 : ℝ) < lon + 180 by linarith)
      (show (0 : ℝ) < Real.pi / 180 by positivity)]
  · nlinarith [mul_nonneg (show (0 : ℝ) ≤ 180 - lon by linarith)
      (show (0 : ℝ) ≤ Real.pi / 180 by positivity)]

theorem w_pos_sq (s : ℝ) (hs : s ^ 2 ≤ 1) :
    0 < Real.sqrt (1 - wgsE2 * s ^ 2) ∧
    Real.sqrt (1 - wgsE2 * s ^ 2) ^ 2 = 1 - wgsE2 * s ^ 2 := by
  have he2 := wgsE2_pos
  have heh := wgsE2_lt_quarter
  have hpos : 0 < 1 - wgsE2 * s ^ 2 := by nlinarith [sq_nonneg s]
  exact ⟨Real.sqrt_pos.mpr hpos, Real.sq_sqrt hpos.le⟩

set_option maxHeartbeats 1000000 in
/-- The WGS84 forward map of the source is injective on valid geodetic
coordinates: any two valid geodetic triples with the same Earth-fixed
Cartesian image coincide. -/
theorem geodetic_forward_inj (lat lon alt lat' lon' alt' : ℝ)
    (hv : validGeodetic lat lon alt) (hv' : validGeodetic lat' lon' alt')
    (heq : geodetic_to_cartesian_ecef lat' lon' alt' =
      geodetic_to_cartesian_ecef lat lon alt) :
    lat' = lat ∧ lon' = lon ∧ alt' = alt := by
  obtain ⟨ha1, ha2, ho1, ho2, hal⟩ := hv
  obtain ⟨hb1, hb2, hq1, hq2, hbl⟩ := hv'
  have hmem := lat_rad_mem lat ha1 ha2
  have hmem' := lat_rad_mem lat' hb1 hb2
  have hc : 0 < Real.cos (radians lat) := Real.cos_pos_of_mem_Ioo hmem
  have hc' : 0 < Real.cos (radians lat') := Real.cos_pos_of_mem_Ioo hmem'
  have hpy := Real.sin_sq_add_cos_sq (radians lat)
  have hpy' := Real.sin_sq_add_cos_sq (radians lat')
  have hcs : Real.cos (radians lat) ^ 2 = 1 - Real.sin (radians lat) ^ 2 := by linarith
  have hcs' : Real.cos (radians lat') ^ 2 = 1 - Real.sin (radians lat') ^ 2 := by linarith
  have hssq : Real.sin (radians lat) ^ 2 ≤ 1 := by nlinarith [sq_nonneg (Real.cos (radians lat))]
  have hssq' : Real.sin (radians lat') ^ 2 ≤ 1 := by
    nlinarith [sq_nonneg (Real.cos (radians lat'))]
  obtain ⟨hw, hws⟩ := w_pos_sq (Real.sin (radians lat)) hssq
  obtain ⟨hw', hws'⟩ := w_pos_sq (Real.sin (radians lat')) hssq'
  have heqx := congrArg Prod.fst heq
  have heqy := congrArg (fun v : ℝ × ℝ × ℝ => v.2.1) heq
  have heqz := congrArg (fun v : ℝ × ℝ × ℝ => v.2.2) heq
  simp only [geodetic_to_cartesian_ecef] at heqx heqy heqz
  set s := Real.sin (radians lat) with hs_def
  set c := Real.cos (radians lat) with hc_def
  set s' := Real.sin (radians lat') with hspr_def
  set c' := Real.cos (radians lat') with hcpr_def
  set w := Real.sqrt (1 - wgsE2 * s ^ 2) with hw_def
  set w' := Real.sqrt (1 - wgsE2 * s' ^ 2) with hwpr_def
  set P := (wgsA / w + alt) * c with hP_def
  set P' := (wgsA / w' + alt') * c' with hPpr_def
  have hNpos : 0 < wgsA / w := div_pos wgsA_pos hw
  have hNpos' : 0 < wgsA / w' := div_pos wgsA_pos hw'
  have hPpos : 0 < P := by
    rw [hP_def]
    exact mul_pos (by linarith) hc
  have hPpos' : 0 < P' := by
    rw [hPpr_def]
    exact mul_pos (by linarith) hc'
  have hsc := Real.sin_sq_add_cos_sq (radians lon)
  have hsc' := Real.sin_sq_add_cos_sq (radians lon')
  have hPP : P' ^ 2 = P ^ 2 := by
    have h1 : (P' * Real.cos (radians lon')) ^ 2 + (P' * Real.sin (radians lon')) ^ 2 =
        P' ^ 2 := by
      linear_combination P' ^ 2 * hsc'
    have h2 : (P * Real.cos (radians lon)) ^ 2 + (P * Real.sin (radians lon)) ^ 2 =
        P ^ 2 := by
      linear_combination P ^ 2 * hsc
    rw [← h1, ← h2, heqx, heqy]
  have hPeq : P' = P := by
    have hzero : (P' - P) * (P' + P) = 0 := by linear_combination hPP
    rcases mul_eq_zero.mp hzero with h | h
    · linarith
    · exfalso
      linarith
  have hseq : s' = s := by
    rcases lt_trichotomy s' s with hlt | heqs | hgt
    · exfalso
      have hstrict := z_strict P s' c' w' alt' s c w alt hc' hc hw' hw hbl hal
        hcs' hcs hws' hws (by rw [← hPeq]) hP_def hlt
      rw [heqz] at hstrict
      exact lt_irrefl _ hstrict
    · exact heqs
    · exfalso
      have hstrict := z_strict P s c w alt s' c' w' alt' hc hc' hw hw' hal hbl
        hcs hcs' hws hws' hP_def (by rw [← hPeq]) hgt
      rw [heqz] at hstrict
      exact lt_irrefl _ hstrict
  have hphi : radians lat' = radians lat := by
    have h1 : radians lat' ∈ Set.Icc (-(Real.pi / 2)) (Real.pi / 2) :=
      Set.mem_Icc.mpr ⟨hmem'.1.le, hmem'.2.le⟩
    have h2 : radians lat ∈ Set.Icc (-(Real.pi / 2)) (Real.pi / 2) :=
      Set.mem_Icc.mpr ⟨hmem.1.le, hmem.2.le⟩
    apply Real.injOn_sin h1 h2
    rw [← hspr_def, ← hs_def]
    exact hseq
  have hlat : lat' = lat := by
    have hne : (Real.pi / 180) ≠ 0 := by positivity
    have h := hphi
    unfold radians at h
    exact mul_right_cancel₀ hne h
  have hceq : c' = c := by
    rw [hcpr_def, hc_def, hphi]
  have hweq : w' = w := by
    rw [hwpr_def, hw_def, hseq]
  have halt : alt' = alt := by
    have h := hPeq
    rw [hPpr_def, hP_def, hceq, hweq] at h
    have h2 := mul_right_cancel₀ (ne_of_gt hc) h
    linarith
  have hlon : lon' = lon := by
    have hx := heqx
    rw [hPeq] at hx
    have hcoseq : Real.cos (radians lon') = Real.cos (radians lon) :=
      mul_left_cancel₀ (ne_of_gt hPpos) hx
    have hy := heqy
    rw [hPeq] at hy
    have hsineq : Real.sin (radians lon') = Real.sin (radians lon) :=
      mul_left_cancel₀ (ne_of_gt hPpos) hy
    have hone : Real.cos (radians lon' - radians lon) = 1 := by
      rw [Real.cos_sub, hcoseq, hsineq]
      linear_combination hsc
    have hu := lon_rad_bounds lon ho1 ho2
    have hu' := lon_rad_bounds lon' hq1 hq2
    have hπ := Real.pi_pos
    have hzero : radians lon' - radians lon = 0 := by
      refine (Real.cos_eq_one_iff_of_lt_of_lt ?_ ?_).mp hone
      · linarith [hu.1, hu.2, hu'.1, hu'.2]
      · linarith [hu.1, hu.2, hu'.1, hu'.2]
    have hne : (Real.pi / 180) ≠ 0 := by positivity
    have hre : radians lon' = radians lon := by linarith
    unfold radians at hre
    exact mul_right_cancel₀ hne hre
  exact ⟨hlat, hlon, halt⟩

/-! ### Claim C2 -/

/-- Claim C2: converting a valid geodetic point to Earth-fixed Cartesian
with the in-repository WGS84 forward map and converting back with any
geodetic solution consistent with the same WGS84 constants (the
spec-modelled contract of the external `ecef_to_geodetic`) reproduces the
point within 10⁻³ degrees in latitude and longitude and 10⁻³ km (1 m) in
altitude — in fact exactly, since the shared ellipsoid constants make the
forward map injective on valid coordinates. -/
theorem claimC2_geodetic_roundtrip (lat lon alt lat' lon' alt' : ℝ)
    (hv : validGeodetic lat lon alt)
    (hinv : ecef_to_geodetic_spec (geodetic_to_cartesian_ecef lat lon alt) lat' lon' alt') :
    |lat' - lat| ≤ 1 / 1000 ∧ |lon' - lon| ≤ 1 / 1000 ∧ |alt' - alt| ≤ 1 / 1000 := by
  obtain ⟨hv', heq⟩ := hinv
  obtain ⟨e1, e2, e3⟩ := geodetic_forward_inj lat lon alt lat' lon' alt' hv hv' heq
  rw [e1, e2, e3]
  norm_num

/-- Witness for claim C2 at the origin point. -/
theorem claimC2_geodetic_roundtrip_witness :
    validGeodetic 0 0 0 ∧
    ecef_to_geodetic_spec (geodetic_to_cartesian_ecef 0 0 0) 0 0 0 ∧
    (|(0 : ℝ) - 0| ≤ 1 / 1000 ∧ |(0 : ℝ) - 0| ≤ 1 / 1000 ∧ |(0 : ℝ) - 0| ≤ 1 / 1000) := by
  have hv : validGeodetic 0 0 0 := by
    unfold validGeodetic
    norm_num
  have hinv : ecef_to_geodetic_spec (geodetic_to_cartesian_ecef 0 0 0) 0 0 0 := ⟨hv, rfl⟩
  exact ⟨hv, hinv, claimC2_geodetic_roundtrip 0 0 0 0 0 0 hv hinv⟩

/-! ### Helper lemmas for the sampler claims -/

theorem calc_unfold (C : Caps) (tle1 tle2 sds : String) (rc : ℤ) (h : ℚ)
    (ftle : Bool) (tlat tlon : ℝ) (ssz : ℝ) (si : ℚ)
    (h1 : tle1.length = 69) (h2 : tle2.length = 69) (hp : C.parseOk = true) :
    calculate_orbit_data C tle1 tle2 sds rc h ftle tlat tlon ssz si false =
      match stepSeconds rc si with
      | none => CalcResult.err ErrKind.invalidRate
      | some step =>
        if h = 0 then CalcResult.err ErrKind.zeroDuration
        else
          match resolveStart ftle tle1 sds with
          | Except.error e => CalcResult.err e
          | Except.ok start =>
            runSampling C tlat tlon ssz start step (runSign h) (numSamples h step)
              (liveSnapshot C) := by
  unfold calculate_orbit_data
  rw [if_neg (by simp [h1, h2]), if_neg (by simp [hp]), if_neg (by simp)]

theorem stepSeconds_invalid (rc : ℤ) (si : ℚ) (hno : ¬(rc = 1 ∨ rc = 2 ∨ rc = 3)) :
    stepSeconds rc si = none := by
  push_neg at hno
  obtain ⟨n1, n2, n3⟩ := hno
  simp [stepSeconds, n1, n2, n3]

theorem stepSeconds_pos (rc : ℤ) (si step : ℚ) (hst : stepSeconds rc si = some step)
    (hsi : 0 < si) : 0 < step := by
  unfold stepSeconds at hst
  split_ifs at hst
  · rw [Option.some_inj] at hst
    linarith [hst]
  · rw [Option.some_inj] at hst
    linarith [hst]
  · rw [Option.some_inj] at hst
    linarith [hst]

theorem runSampling_eq (C : Caps) (tlat tlon ssz : ℝ) (start step sgn : ℚ) (n : ℤ)
    (live : (ℝ × ℝ × ℝ × ℚ) × (ℝ × ℝ × ℝ)) :
    runSampling C tlat tlon ssz start step sgn n live =
      if (sampleTimes start step sgn n).countP (fun t => (C.prop t).1 == 0) = 0 then
        CalcResult.err (ErrKind.allFailed (runTally C.prop (sampleTimes start step sgn n)) n)
      else
        CalcResult.ok
          ⟨(sampleTimes start step sgn n).countP (fun t => (C.prop t).1 == 0),
           ((sampleTimes start step sgn n).filterMap (covEntry C tlat tlon ssz)).length,
           runTally C.prop (sampleTimes start step sgn n),
           (sampleTimes start step sgn n).map (sampleRow C tlat tlon ssz),
           (sampleTimes start step sgn n).filterMap (covEntry C tlat tlon ssz),
           (tlat, tlon), start, live.1, live.2⟩ := rfl

theorem sampleRow_fail (C : Caps) (tlat tlon ssz : ℝ) (t : ℚ) (hc : (C.prop t).1 ≠ 0) :
    sampleRow C tlat tlon ssz t = ⟨0, 0, 0, (C.prop t).1, 0, 0, 0, 0, 0⟩ := by
  unfold sampleRow
  rw [if_neg hc]

/-! ### Claim C8 -/

/-- Claim C8: on a sampling invocation (not live-only) with valid element
lines, a requested duration of exactly zero always returns the
zero-duration configuration error (when the rate selector is valid; an
invalid rate selector returns the invalid-rate configuration error, which
the code checks first), and a run result is never produced with zero
duration: both paths return an error carrying no sample sequence. -/
theorem claimC8_config_errors (C : Caps) (tle1 tle2 sds : String) (rc : ℤ) (h : ℚ)
    (ftle : Bool) (tlat tlon ssz : ℝ) (si : ℚ)
    (h1 : tle1.length = 69) (h2 : tle2.length = 69) (hp : C.parseOk = true) :
    ((rc = 1 ∨ rc = 2 ∨ rc = 3) → h = 0 →
      calculate_orbit_data C tle1 tle2 sds rc h ftle tlat tlon ssz si false =
        CalcResult.err ErrKind.zeroDuration) ∧
    (¬(rc = 1 ∨ rc = 2 ∨ rc = 3) →
      calculate_orbit_data C tle1 tle2 sds rc h ftle tlat tlon ssz si false =
        CalcResult.err ErrKind.invalidRate) ∧
    (∀ r : OkRun,
      calculate_orbit_data C tle1 tle2 sds rc h ftle tlat tlon ssz si false =
        CalcResult.ok r → h ≠ 0) := by
  rw [calc_unfold C tle1 tle2 sds rc h ftle tlat tlon ssz si h1 h2 hp]
  refine ⟨?_, ?_, ?_⟩
  · intro hr h0
    rcases hr with rfl | rfl | rfl <;> simp [stepSeconds, h0]
  · intro hr
    rw [stepSeconds_invalid rc si hr]
  · intro r hok h0
    rcases hcase : stepSeconds rc si with _ | step
    · simp only [hcase] at hok
      simp at hok
    · simp only [hcase] at hok
      rw [if_pos h0] at hok
      simp at hok

/-! ### Claim C4 -/

/-- Claim C4: under a valid configuration, the run returns the aggregate
run-level failure (carrying the per-code tally) exactly when zero samples
propagate successfully; when at least one sample succeeds the run returns
the success payload whose message data carries the per-code failure tally,
whose full sequence is the per-sample map over the whole time grid
(so failed samples are still appended), and every failed sample's row has
the null geodetic fields `(0, 0, 0)` and covered flag `0`. -/
theorem claimC4_partial_failure (C : Caps) (tle1 tle2 sds : String) (rc : ℤ) (h : ℚ)
    (ftle : Bool) (tlat tlon ssz : ℝ) (si step start : ℚ)
    (h1 : tle1.length = 69) (h2 : tle2.length = 69) (hp : C.parseOk = true)
    (hst : stepSeconds rc si = some step) (hh : h ≠ 0)
    (hres : resolveStart ftle tle1 sds = Except.ok start) :
    (calculate_orbit_data C tle1 tle2 sds rc h ftle tlat tlon ssz si false =
        CalcResult.err (ErrKind.allFailed
          (runTally C.prop (sampleTimes start step (runSign h) (numSamples h step)))
          (numSamples h step)) ↔
      (sampleTimes start step (runSign h) (numSamples h step)).countP
        (fun t => (C.prop t).1 == 0) = 0) ∧
    ((sampleTimes start step (runSign h) (numSamples h step)).countP
        (fun t => (C.prop t).1 == 0) ≠ 0 →
      calculate_orbit_data C tle1 tle2 sds rc h ftle tlat tlon ssz si false =
        CalcResult.ok
          ⟨(sampleTimes start step (runSign h) (numSamples h step)).countP
              (fun t => (C.prop t).1 == 0),
           ((sampleTimes start step (runSign h) (numSamples h step)).filterMap
              (covEntry C tlat tlon ssz)).length,
           runTally C.prop (sampleTimes start step (runSign h) (numSamples h step)),
           (sampleTimes start step (runSign h) (numSamples h step)).map
              (sampleRow C tlat tlon ssz),
           (sampleTimes start step (runSign h) (numSamples h step)).filterMap
              (covEntry C tlat tlon ssz),
           (tlat, tlon), start, (liveSnapshot C).1, (liveSnapshot C).2⟩) ∧
    (∀ t : ℚ, (C.prop t).1 ≠ 0 →
      sampleRow C tlat tlon ssz t = ⟨0, 0, 0, (C.prop t).1, 0, 0, 0, 0, 0⟩) := by
  rw [calc_unfold C tle1 tle2 sds rc h ftle tlat tlon ssz si h1 h2 hp]
  simp only [hst, hres]
  rw [if_neg hh, runSampling_eq]
  by_cases hsucc : (sampleTimes start step (runSign h) (numSamples h step)).countP
      (fun t => (C.prop t).1 == 0) = 0
  · rw [if_pos hsucc]
    exact ⟨⟨fun _ => hsucc, fun _ => rfl⟩, fun hne => absurd hsucc hne,
      fun t hc => sampleRow_fail C tlat tlon ssz t hc⟩
  · rw [if_neg hsucc]
    exact ⟨⟨fun hcontra => absurd hcontra (by simp), fun h0 => absurd h0 hsucc⟩,
      fun _ => rfl, fun t hc => sampleRow_fail C tlat tlon ssz t hc⟩

/-! ### Claim C5 -/

/-- Claim C5: on a run with nonzero requested duration, valid rate selector
and positive sampling interval (the input contract), the time grid has
exactly `⌈|duration_hours * 3600| / step⌉ + 1` entries including the
initial instant, the `i`-th sample instant is the start epoch plus
`i * step * sign` seconds with the sign taken from the requested duration,
the grid is strictly increasing for positive durations and strictly
decreasing for negative ones, and any successful run result surfaces a
full sample sequence of exactly that length. -/
theorem claimC5_sample_grid (C : Caps) (tle1 tle2 sds : String) (rc : ℤ) (h : ℚ)
    (ftle : Bool) (tlat tlon ssz : ℝ) (si step : ℚ)
    (h1 : tle1.length = 69) (h2 : tle2.length = 69) (hp : C.parseOk = true)
    (hst : stepSeconds rc si = some step) (hh : h ≠ 0) (hsi : 0 < si) :
    1 ≤ numSamples h step ∧
    (∀ start : ℚ, (sampleTimes start step (runSign h) (numSamples h step)).length =
      (numSamples h step).toNat + 1) ∧
    (∀ start : ℚ, ∀ i : ℕ,
      sampleTime start step (runSign h) i = start + i * step * runSign h) ∧
    (0 < h → ∀ start : ℚ, StrictMono (sampleTime start step (runSign h))) ∧
    (h < 0 → ∀ start : ℚ, StrictAnti (sampleTime start step (runSign h))) ∧
    (∀ r : OkRun, calculate_orbit_data C tle1 tle2 sds rc h ftle tlat tlon ssz si false =
        CalcResult.ok r →
      r.rows.length = (numSamples h step).toNat + 1) := by
  have hstep : 0 < step := stepSeconds_pos rc si step hst hsi
  have habs : 0 < |h * 3600| := by
    apply abs_pos.mpr
    intro hcon
    rcases mul_eq_zero.mp hcon with hz | hz
    · exact hh hz
    · norm_num at hz
  have hn1 : 1 ≤ numSamples h step := by
    unfold numSamples
    have hpos : 0 < ⌈|h * 3600| / step⌉ := Int.ceil_pos.mpr (div_pos habs hstep)
    omega
  have hlen : ∀ start : ℚ,
      (sampleTimes start step (runSign h) (numSamples h step)).length =
        (numSamples h step).toNat + 1 := by
    intro start
    unfold sampleTimes
    rw [List.length_map, List.length_range]
    omega
  refine ⟨hn1, hlen, fun start i => rfl, ?_, ?_, ?_⟩
  · intro h0 start a b hab
    have hcast : (a : ℚ) < b := by exact_mod_cast hab
    have key := mul_lt_mul_of_pos_right hcast hstep
    unfold sampleTime runSign
    rw [if_pos h0.le]
    nlinarith [key]
  · intro h0 start a b hab
    have hcast : (a : ℚ) < b := by exact_mod_cast hab
    have key := mul_lt_mul_of_pos_right hcast hstep
    unfold sampleTime runSign
    rw [if_neg (not_le.mpr h0)]
    nlinarith [key]
  · intro r hok
    rw [calc_unfold C tle1 tle2 sds rc h ftle tlat tlon ssz si h1 h2 hp] at hok
    simp only [hst] at hok
    rw [if_neg hh] at hok
    rcases hcase : resolveStart ftle tle1 sds with e | start
    · simp only [hcase] at hok
      simp at hok
    · simp only [hcase] at hok
      rw [runSampling_eq] at hok
      by_cases hsucc : (sampleTimes start step (runSign h) (numSamples h step)).countP
          (fun t => (C.prop t).1 == 0) = 0
      · rw [if_pos hsucc] at hok
        simp at hok
      · rw [if_neg hsucc] at hok
        simp only [CalcResult.ok.injEq] at hok
        rw [← hok]
        show ((sampleTimes start step (runSign h) (numSamples h step)).map
          (sampleRow C tlat tlon ssz)).length = (numSamples h step).toNat + 1
        rw [List.length_map]
        exact hlen start

/-! ### Claim C9 -/

/-- Claim C9: when the propagator fails on the single live-snapshot call,
the engine keeps serving the request with the fixed fallback: geodetic
lat = 0, lon = 0 (with zero altitude field) and the Earth-fixed Cartesian
point `(0, 0, 6378.137 * 1.1)`, which sits strictly above the ellipsoid
equatorial radius 6378.137; in live-only mode the request returns this
snapshot rather than an error. -/
theorem claimC9_live_fallback (C : Caps) (tle1 tle2 sds : String) (rc : ℤ) (h : ℚ)
    (ftle : Bool) (tlat tlon ssz : ℝ) (si : ℚ)
    (h1 : tle1.length = 69) (h2 : tle2.length = 69) (hp : C.parseOk = true)
    (hfail : (C.prop C.now).1 ≠ 0) :
    liveSnapshot C = ((0, 0, 0, C.now), (0, 0, 6378.137 * 1.1)) ∧
    calculate_orbit_data C tle1 tle2 sds rc h ftle tlat tlon ssz si true =
      CalcResult.liveOnly (0, 0, 0, C.now) (0, 0, 6378.137 * 1.1) ∧
    (6378.137 : ℝ) < 6378.137 * 1.1 := by
  have hsnap : liveSnapshot C = ((0, 0, 0, C.now), (0, 0, 6378.137 * 1.1)) := by
    unfold liveSnapshot
    rw [if_neg hfail]
  refine ⟨hsnap, ?_, by norm_num⟩
  unfold calculate_orbit_data
  rw [if_neg (by simp [h1, h2]), if_neg (by simp [hp]), if_pos rfl, hsnap]

/-! ### Witnesses for the sampler claims -/

/-- Witness for claim C8: a zero-duration run with rate selector 1. -/
theorem claimC8_witness :
    tleLineC1.length = 69 ∧ tleLine2.length = 69 ∧ capsAllOk.parseOk = true ∧
    calculate_orbit_data capsAllOk tleLineC1 tleLine2 "" 1 0 true 0 0 0 1 false =
      CalcResult.err ErrKind.zeroDuration := by
  refine ⟨by decide, by decide, rfl, ?_⟩
  exact (claimC8_config_errors capsAllOk tleLineC1 tleLine2 "" 1 0 true 0 0 0 1
    (by decide) (by decide) rfl).1 (Or.inl rfl) rfl

/-- Witness for claim C4: an all-failing propagator over a one-hour run. -/
theorem claimC4_witness :
    tleLineC1.length = 69 ∧ tleLine2.length = 69 ∧ capsAllFail.parseOk = true ∧
    stepSeconds 1 1 = some 1 ∧ ((1 : ℚ) ≠ 0) ∧
    resolveStart true tleLineC1 "" = Except.ok 63839793600 ∧
    (∀ t : ℚ, (capsAllFail.prop t).1 ≠ 0 →
      sampleRow capsAllFail 0 0 0 t = ⟨0, 0, 0, (capsAllFail.prop t).1, 0, 0, 0, 0, 0⟩) := by
  refine ⟨by decide, by decide, rfl, rfl, by norm_num, resolveStart_tleLineC1, ?_⟩
  exact (claimC4_partial_failure capsAllFail tleLineC1 tleLine2 "" 1 1 true 0 0 0 1 1
    63839793600 (by decide) (by decide) rfl rfl (by norm_num) resolveStart_tleLineC1).2.2

/-- Witness for claim C5: a one-hour run at one-second steps. -/
theorem claimC5_witness :
    tleLineC1.length = 69 ∧ tleLine2.length = 69 ∧ capsAllOk.parseOk = true ∧
    stepSeconds 1 1 = some 1 ∧ ((1 : ℚ) ≠ 0) ∧ ((0 : ℚ) < 1) ∧
    1 ≤ numSamples 1 1 := by
  refine ⟨by decide, by decide, rfl, rfl, by norm_num, by norm_num, ?_⟩
  exact (claimC5_sample_grid capsAllOk tleLineC1 tleLine2 "" 1 1 true 0 0 0 1 1
    (by decide) (by decide) rfl rfl (by norm_num) (by norm_num)).1

/-- Witness for claim C9: a live-only call whose propagator fails. -/
theorem claimC9_witness :
    tleLineC1.length = 69 ∧ tleLine2.length = 69 ∧ capsAllFail.parseOk = true ∧
    (capsAllFail.prop capsAllFail.now).1 ≠ 0 ∧
    (liveSnapshot capsAllFail = ((0, 0, 0, capsAllFail.now), (0, 0, 6378.137 * 1.1)) ∧
     calculate_orbit_data capsAllFail tleLineC1 tleLine2 "" 1 1 true 0 0 0 1 true =
       CalcResult.liveOnly (0, 0, 0, capsAllFail.now) (0, 0, 6378.137 * 1.1) ∧
     (6378.137 : ℝ) < 6378.137 * 1.1) := by
  have hf : (capsAllFail.prop capsAllFail.now).1 ≠ 0 := by
    simp [capsAllFail]
  exact ⟨by decide, by decide, rfl, hf,
    claimC9_live_fallback capsAllFail tleLineC1 tleLine2 "" 1 1 true 0 0 0 1
      (by decide) (by decide) rfl hf⟩
